import Mathlib

/-!
Shallow embedding of `src/chatbot.py` (Travel-Assistant): a query router for
a travel-enquiry chat endpoint.  Strings are modelled by Lean `String`
(a list of characters); Python substring containment `a in b` becomes
`a.data <:+: b.data`; Python dicts arriving from `response.json()` are
modelled by an inductive `Json` type; exceptions escaping a function are
modelled by `Except String`.  External collaborators (the live-status HTTP
API and the language-model client) are modelled as oracle fields of an
`Env` record: `fetch` gives the value `fetch_train_status` returns
(`none` for any network error / timeout / non-200, mirroring its internal
`try/except`), and `llm` gives the outcome of the guarded block in the
fallback branch (`.error e` when any exception is raised there).
-/

/-- JSON values as delivered by `response.json()` in Python. -/
inductive Json where
  | null : Json
  | str : String → Json
  | num : Int → Json
  | arr : List Json → Json
  | obj : List (String × Json) → Json

/-- Python truthiness of a JSON value (`if data ...`): `None`, `""`, `0`,
`[]`, `{}` are falsy, everything else truthy. -/
def Json.truthy : Json → Bool
  | .null => false
  | .str s => s ≠ ""
  | .num n => n ≠ 0
  | .arr xs => !xs.isEmpty
  | .obj fs => !fs.isEmpty

/-- Python `key in j`: key membership for a dict, substring test for a
string, element equality for a list (a string equals only an equal
string); a `TypeError` for `int`/`None`. -/
def Json.containsKey (key : String) : Json → Except String Bool
  | .obj fs => .ok (fs.any (fun kv => kv.1 == key))
  | .arr xs => .ok (xs.any (fun x => match x with | .str s => s == key | _ => false))
  | .str s => .ok (decide (key.data <:+: s.data))
  | _ => .error "TypeError: argument of type is not iterable"

/-- Python `j.get(key, default)`: only dicts have `.get`; any other value
raises `AttributeError`. -/
def Json.get (j : Json) (key : String) (dflt : Json) : Except String Json :=
  match j with
  | .obj fs => .ok ((List.lookup key fs).getD dflt)
  | _ => .error "AttributeError: object has no attribute get"

/-- Python `repr(x)` on a JSON value (strings are quoted). -/
def Json.pyRepr : Json → String
  | .null => "None"
  | .str s => "'" ++ s ++ "'"
  | .num n => toString n
  | .arr xs => "[" ++ String.intercalate ", " (xs.attach.map (fun x => Json.pyRepr x.1)) ++ "]"
  | .obj fs => "\x7b" ++ String.intercalate ", "
      (fs.attach.map (fun kv => "'" ++ kv.1.1 ++ "': " ++ Json.pyRepr kv.1.2)) ++ "\x7d"
termination_by j => sizeOf j
decreasing_by
  · have := List.sizeOf_lt_of_mem x.2
    simp only [Json.arr.sizeOf_spec]
    omega
  · have h1 := List.sizeOf_lt_of_mem kv.2
    have h2 : sizeOf kv.1.2 < sizeOf kv.1 := by
      obtain ⟨a, b⟩ := kv.1
      simp only [Prod.mk.sizeOf_spec]
      omega
    simp only [Json.obj.sizeOf_spec]
    omega

/-- Python `str(x)` on a JSON value, as used inside f-strings:
`None` prints as `None`, strings print bare, ints print in decimal,
containers print in `repr` style. -/
def Json.pyStr : Json → String
  | .null => "None"
  | .str s => s
  | .num n => toString n
  | .arr xs => Json.pyRepr (.arr xs)
  | .obj fs => Json.pyRepr (.obj fs)

/-- A train record as loaded from `trains.json`; absent keys are `none`
(`d.get(k, default)` in the source). -/
structure TrainRec where
  trainName : Option String
  trainNumber : Option String
  route : Option String
  duration : Option String
deriving DecidableEq

/-- A bus record as loaded from `buses.json`. -/
structure BusRec where
  busName : Option String
  busNumber : Option String
  route : Option String
  time : Option String
deriving DecidableEq

/-- The dict appended by `find_trains` for a matching record. -/
structure TrainResult where
  name : String
  number : String
  route : String
  duration : String
  departure : String
  arrival : String
deriving DecidableEq

/-- The dict appended by `find_buses` for a matching record. -/
structure BusResult where
  name : String
  number : String
  route : String
  departure : String
  arrival : String
  time : String
deriving DecidableEq

/-- Characters kept by the regex `[^a-z0-9 ]` replacement: `a`-`z`,
`0`-`9` and the space. -/
def isNormChar (c : Char) : Bool :=
  (97 ≤ c.toNat && c.toNat ≤ 122) || (48 ≤ c.toNat && c.toNat ≤ 57) || c.toNat == 32

/-- `norm(text)`: lowercase, then delete every character outside
`[a-z0-9 ]` (`re.sub(r"[^a-z0-9 ]","",str(text).lower())`). -/
def norm (s : String) : String :=
  ⟨(s.data.map Char.toLower).filter isNormChar⟩

/-- Python `needle in hay` on strings: substring containment. -/
def strIn (needle hay : String) : Bool :=
  decide (needle.data <:+: hay.data)

/-- Left-to-right scan of `str.split(" to ")`: cut at each (leftmost,
non-overlapping) occurrence of the four characters of `" to "`. -/
def splitToAux : List Char → List Char → List (List Char)
  | ' ' :: 't' :: 'o' :: ' ' :: rest, acc => acc.reverse :: splitToAux rest []
  | c :: rest, acc => splitToAux rest (c :: acc)
  | [], acc => [acc.reverse]

/-- Python `route.split(" to ")` (the separator is the fixed literal of
the source). -/
def py_split_to (s : String) : List String :=
  (splitToAux s.data []).map (fun cs => (⟨cs⟩ : String))

/-- The guard of `find_trains`/`find_buses` for one record:
`len(parts) == 2 and all(norm(p) in q for p in parts)` where
`parts = route.split(" to ")` and `q = norm(query)`. -/
def routeMatches (q : String) (route : String) : Bool :=
  let parts := py_split_to route
  parts.length == 2 && parts.all (fun p => strIn (norm p) q)

/-- `find_trains(query)`: walk the train records in order, appending a
result dict for every record whose route splits into exactly two parts
both of which occur (normalized) inside the normalized query. -/
def find_trains (query : String) (trains : List TrainRec) : List TrainResult :=
  let q := norm query
  trains.filterMap (fun d =>
    let route := d.route.getD ""
    let parts := py_split_to route
    if routeMatches q route then
      some { name := d.trainName.getD "N/A"
             number := d.trainNumber.getD "N/A"
             route := route
             duration := d.duration.getD "N/A"
             departure := parts.getD 0 ""
             arrival := parts.getD 1 "" }
    else none)

/-- `find_buses(query)`: same matching loop over the bus records. -/
def find_buses (query : String) (buses : List BusRec) : List BusResult :=
  let q := norm query
  buses.filterMap (fun d =>
    let route := d.route.getD ""
    let parts := py_split_to route
    if routeMatches q route then
      some { name := d.busName.getD "N/A"
             number := d.busNumber.getD "N/A"
             route := route
             departure := parts.getD 0 ""
             arrival := parts.getD 1 ""
             time := d.time.getD "N/A" }
    else none)

/-- The result dict `find_trains` builds for a record (for stating the
matcher's specification). -/
def mkTrainResult (d : TrainRec) : TrainResult :=
  let route := d.route.getD ""
  let parts := py_split_to route
  { name := d.trainName.getD "N/A"
    number := d.trainNumber.getD "N/A"
    route := route
    duration := d.duration.getD "N/A"
    departure := parts.getD 0 ""
    arrival := parts.getD 1 "" }

/-- The result dict `find_buses` builds for a record. -/
def mkBusResult (d : BusRec) : BusResult :=
  let route := d.route.getD ""
  let parts := py_split_to route
  { name := d.busName.getD "N/A"
    number := d.busNumber.getD "N/A"
    route := route
    departure := parts.getD 0 ""
    arrival := parts.getD 1 ""
    time := d.time.getD "N/A" }

/-- Whether a record passes the matcher's guard against a query. -/
def trainMatches (query : String) (d : TrainRec) : Bool :=
  routeMatches (norm query) (d.route.getD "")

/-- Whether a bus record passes the matcher's guard against a query. -/
def busMatches (query : String) (d : BusRec) : Bool :=
  routeMatches (norm query) (d.route.getD "")

/-- `format_trains`: `None` for an empty list, else the decorated HTML
report built by appending one card per result. -/
def format_trains (trains_list : List TrainResult) : Option String :=
  if trains_list = [] then none
  else
    let text := "<div class='result-header'>🚆 Trains Found:</div>"
    let text := trains_list.foldl (fun acc t =>
      acc ++ "\n        <div class=\"result-card train\">\n            <div class=\"result-title\">"
          ++ t.name ++ " <span>(" ++ t.number
          ++ ")</span></div>\n            <div class=\"result-detail\"><strong>Departure:</strong> "
          ++ t.departure
          ++ "</div>\n            <div class=\"result-detail\"><strong>Duration:</strong> "
          ++ t.duration
          ++ "</div>\n            <div class=\"result-detail\"><strong>Arrival:</strong> "
          ++ t.arrival ++ "</div>\n        </div>\n        ") text
    some (text ++ "<div class='note'>⚠️ Train schedules may change. Verify before booking.</div>")

/-- `format_buses`: `None` for an empty list, else the decorated HTML
report. -/
def format_buses (buses_list : List BusResult) : Option String :=
  if buses_list = [] then none
  else
    let text := "<div class='result-header'>🚌 Buses Found:</div>"
    let text := buses_list.foldl (fun acc b =>
      acc ++ "\n        <div class=\"result-card bus\">\n            <div class=\"result-title\">"
          ++ b.name ++ " <span>(" ++ b.number
          ++ ")</span></div>\n            <div class=\"result-detail\"><strong>Departure:</strong> "
          ++ b.departure
          ++ "</div>\n            <div class=\"result-detail\"><strong>Arrival:</strong> "
          ++ b.arrival
          ++ "</div>\n            <div class=\"result-detail\"><strong>Time:</strong> "
          ++ b.time ++ "</div>\n        </div>\n        ") text
    some (text ++ "<div class='note'>⚠️ Bus schedules may change. Verify before booking.</div>")

/-- The `fallback_train` dict of `parse_train_response`. -/
def fallback_train : List (String × Json) :=
  [("train_number", .str "12051"),
   ("train_name", .str "Shatabdi Express"),
   ("start_date", .str "2025-09-18"),
   ("current_station_name", .str "New Delhi"),
   ("last_updated_time", .str "10:15 AM"),
   ("delay_in_minutes", .num 0)]

/-- `fallback_train[k]` (the key is always present in the literal). -/
def fallbackField (k : String) : Json :=
  (List.lookup k fallback_train).getD .null

/-- `parse_train_response(data)`: pick `data.get("data")` when `data` is
truthy and has a `"data"` key, else the fallback dict; then read the six
fields with field-by-field defaults and render the report.  `Except`
models Python exceptions: `data and "data" in data` raises `TypeError`
on an `int`/`None` body, and `.get` raises `AttributeError` when
`train_info` is not a dict (e.g. body `{"data": null}`). -/
def parse_train_response (data : Option Json) : Except String String := do
  let train_info ← (match data with
    | some j =>
      if j.truthy then do
        let c ← j.containsKey "data"
        if c then j.get "data" .null else pure (Json.obj fallback_train)
      else pure (Json.obj fallback_train)
    | none => pure (Json.obj fallback_train))
  let train_number ← train_info.get "train_number" (fallbackField "train_number")
  let train_name ← train_info.get "train_name" (fallbackField "train_name")
  let start_date ← train_info.get "start_date" (fallbackField "start_date")
  let current_station ← train_info.get "current_station_name" (fallbackField "current_station_name")
  let last_updated ← train_info.get "last_updated_time" (fallbackField "last_updated_time")
  let delay_info ← train_info.get "delay_in_minutes" (fallbackField "delay_in_minutes")
  let delay_text := if delay_info.truthy then delay_info.pyStr ++ " minutes" else "On Time ✅"
  pure ("\n🚆 Train Status Report\n-------------------------\nTrain Number : "
    ++ train_number.pyStr ++ "\nTrain Name   : " ++ train_name.pyStr
    ++ "\nStart Date   : " ++ start_date.pyStr
    ++ "\nCurrent Pos. : " ++ current_station.pyStr
    ++ "\nLast Updated : " ++ last_updated.pyStr
    ++ "\nDelay        : " ++ delay_text ++ "\n-------------------------\n")

/-- A word character of the regex `\b` boundary (`[A-Za-z0-9_]` in the
ASCII model of this embedding). -/
def isWordCh (c : Char) : Bool :=
  c.isAlphanum || c == '_'

/-- `\b` holds before a digit exactly when the preceding character (if
any) is not a word character. -/
def boundaryB : Option Char → Bool
  | none => true
  | some p => !isWordCh p

/-- `\b` holds after the five digits exactly when the following
character (if any) is not a word character. -/
def headOkB : List Char → Bool
  | [] => true
  | c :: _ => !isWordCh c

/-- Try to match `\d{5}\b` at the head of the remaining input. -/
def fiveDigitsAt (l : List Char) : Option (List Char) :=
  if (l.take 5).length == 5 && (l.take 5).all Char.isDigit && headOkB (l.drop 5)
  then some (l.take 5) else none

/-- Scan left to right carrying the previous character, returning the
leftmost match of `\b\d{5}\b`. -/
def searchFiveAux (prev : Option Char) : List Char → Option (List Char)
  | [] => none
  | c :: rest =>
    match (if boundaryB prev then fiveDigitsAt (c :: rest) else none) with
    | some m => some m
    | none => searchFiveAux (some c) rest

/-- `re.search(r"\b(\d{5})\b", query)`: the first standalone five-digit
group of the raw query, if any. -/
def searchFiveDigit (query : String) : Option String :=
  (searchFiveAux none query.data).map (fun cs => ⟨cs⟩)

/-- A message of the global `messages` list. -/
structure Message where
  role : String
  content : String
deriving DecidableEq

/-- The initial contents of the global `messages` list. -/
def init_messages : List Message :=
  [⟨"system", "You are a travel enquiry assistant. Only answer about buses and trains. If unrelated, reply: 'I can only help with bus and train schedules.'"⟩]

/-- The external world the dispatcher runs against: the two loaded route
datasets, plus oracles for the two outbound calls.  `fetch tn` is what
`fetch_train_status(tn)` returns (`none` for any request exception,
timeout or non-200 status — its internal `try/except` already absorbed
those); `llm h` is the outcome of the language-model call on history `h`
(`.ok` carries the stripped reply, `.error` the exception text). -/
structure Env where
  trains : List TrainRec
  buses : List BusRec
  fetch : String → Option Json
  llm : List Message → Except String String

/-- `fetch_train_status(train_number)` as seen by the dispatcher. -/
def fetch_train_status (env : Env) (train_number : String) : Option Json :=
  env.fetch train_number

/-- `chatbot(query)`: schedule match on trains, then buses, then the
5-digit live-status lookup, then the language-model fallback.  Returns
the reply together with the new global `messages` list; `.error`
models an uncaught Python exception escaping `chatbot`. -/
def chatbot (env : Env) (query : String) (messages : List Message) :
    Except String (String × List Message) :=
  let trains_list := find_trains query env.trains
  let buses_list := find_buses query env.buses
  if !trains_list.isEmpty then .ok ((format_trains trains_list).getD "", messages)
  else if !buses_list.isEmpty then .ok ((format_buses buses_list).getD "", messages)
  else
    match searchFiveDigit query with
    | some train_number => do
      let api_data := fetch_train_status env train_number
      let report ← parse_train_response api_data
      pure (report, messages)
    | none =>
      let messages := messages ++ [⟨"user", query⟩]
      match env.llm messages with
      | .ok ans => .ok (ans, messages ++ [⟨"assistant", ans⟩])
      | .error e => .ok ("Error: " ++ e, messages)

/-- An HTTP reply of the `/ask` route: `jsonify` always answers with
status 200 and the answer string in the body. -/
structure AskResponse where
  status : Nat
  answer : String
deriving DecidableEq

/-- The `/ask` handler: a missing or falsy query yields the fixed
placeholder, otherwise the dispatcher's reply is wrapped in a 200
response. -/
def ask (env : Env) (q : Option String) (messages : List Message) :
    Except String (AskResponse × List Message) :=
  match q with
  | some s =>
    if s ≠ "" then (chatbot env s messages).map (fun r => (⟨200, r.1⟩, r.2))
    else .ok (⟨200, "No query provided"⟩, messages)
  | none => .ok (⟨200, "No query provided"⟩, messages)

/-- The scenario record from the spec (trains dataset). -/
def rajdhaniRec : TrainRec :=
  ⟨some "Rajdhani", some "101", some "Delhi to Mumbai", some "16h"⟩

/-- A sample bus record. -/
def vrlRec : BusRec :=
  ⟨some "VRL Travels", some "B7", some "Pune to Goa", some "21:00"⟩

/-- The dispatcher environment for the concrete witnesses: one train
record, one bus record, an unreachable status API and a fixed
language-model reply. -/
def envW : Env :=
  ⟨[rajdhaniRec], [vrlRec], fun _ => none, fun _ => .ok "sample reply"⟩

/-- A malformed train record: its route has no " to " separator. -/
def badTrain : TrainRec := ⟨some "Ghost", some "000", some "DelhiMumbai", none⟩

/-- A malformed bus record: its route splits into three parts. -/
def badBus : BusRec := ⟨some "GhostBus", some "B0", some "a to b to c", none⟩

/-- An environment whose language-model call always raises. -/
def envErr : Env :=
  ⟨[rajdhaniRec], [vrlRec], fun _ => none, fun _ => .error "APIConnectionError: boom"⟩

/-- An environment whose language-model call answers from the history
length, so the two rounds get distinct replies. -/
def envLLM : Env :=
  ⟨[rajdhaniRec], [vrlRec], fun _ => none,
   fun h => .ok ("reply " ++ toString h.length)⟩

/-- The report rendered entirely from the fallback defaults (zero delay
renders as "On Time ✅"). -/
def fallback_report : String :=
  "\n🚆 Train Status Report\n-------------------------\nTrain Number : 12051\nTrain Name   : Shatabdi Express\nStart Date   : 2025-09-18\nCurrent Pos. : New Delhi\nLast Updated : 10:15 AM\nDelay        : On Time ✅\n-------------------------\n"

/-- A world whose status API answers 200 with the body `{"data": null}`. -/
def envNullData : Env :=
  ⟨[], [], fun _ => some (Json.obj [("data", Json.null)]), fun _ => .ok "ok"⟩

/-- `\b` holds at the start of a candidate run: the last character of
the text before the run — or, for an empty prefix, the character before
the scanned region — must not be a word character. -/
def bstartB (prev : Option Char) (pre : List Char) : Bool :=
  match pre.getLast? with
  | some c => !isWordCh c
  | none => boundaryB prev

/-- A decomposition `pre ++ mid ++ post` is a match of `\b\d{5}\b`
(relative to the character `prev` preceding the scanned region). -/
def goodRunB (prev : Option Char) (pre mid post : List Char) : Bool :=
  bstartB prev pre && (mid.length == 5) && mid.all Char.isDigit && headOkB post

/-- `m` is the leftmost `\b\d{5}\b` match inside `l` (scanned after
`prev`). -/
def FirstMatch (prev : Option Char) (l m : List Char) : Prop :=
  ∃ pre post, l = pre ++ m ++ post ∧ goodRunB prev pre m post = true ∧
    ∀ pre' mid' post', l = pre' ++ mid' ++ post' → goodRunB prev pre' mid' post' = true →
      pre.length ≤ pre'.length

/-- The claim's reading of the branch condition, modelled from its
words: a run of exactly five digits whose immediate neighbours are
non-DIGIT characters or the string boundary. -/
def claimedFiveDigitRun (q : String) : Bool :=
  let l := q.data
  (List.range l.length).any (fun i =>
    decide (i + 5 ≤ l.length)
    && ((l.drop i).take 5).all Char.isDigit
    && (i == 0 || !(l.getD (i - 1) ' ').isDigit)
    && (decide (i + 5 = l.length) || !(l.getD (i + 5) ' ').isDigit))

/-! ## Properties of the schedule matcher -/

theorem filterMap_ite {α β : Type} (c : α → Bool) (g : α → β) (l : List α) :
    l.filterMap (fun d => if c d then some (g d) else none) = (l.filter c).map g := by
  induction l with
  | nil => rfl
  | cons a l ih =>
    by_cases h : c a = true
    · simp [List.filterMap_cons, List.filter_cons, h, ih]
    · simp [List.filterMap_cons, List.filter_cons, h, ih]

theorem find_trains_eq_filter (query : String) (ts : List TrainRec) :
    find_trains query ts = (ts.filter (trainMatches query)).map mkTrainResult := by
  simpa only [find_trains, trainMatches, mkTrainResult] using
    filterMap_ite (trainMatches query) mkTrainResult ts

theorem find_buses_eq_filter (query : String) (bs : List BusRec) :
    find_buses query bs = (bs.filter (busMatches query)).map mkBusResult := by
  simpa only [find_buses, busMatches, mkBusResult] using
    filterMap_ite (busMatches query) mkBusResult bs

theorem routeMatches_iff (q route : String) :
    routeMatches q route = true ↔
      (py_split_to route).length = 2 ∧
        ∀ p ∈ py_split_to route, (norm p).data <:+: q.data := by
  simp [routeMatches, strIn, List.all_eq_true]

/-- C1: the schedule matcher (`find_trains` / `find_buses`) equals the
order-preserving map of the record constructor over the matching records
(so every matching record is returned, exactly once per occurrence, in
original order), and for every record whose route splits on " to " into
exactly two parts, its result dict is in the output iff both normalized
endpoints are substrings of the normalized query. -/
theorem schedule_matcher_spec (query : String) (ts : List TrainRec) (bs : List BusRec) :
    find_trains query ts = (ts.filter (trainMatches query)).map mkTrainResult ∧
    find_buses query bs = (bs.filter (busMatches query)).map mkBusResult ∧
    (∀ d ∈ ts, ((py_split_to (d.route.getD "")).length = 2) →
      (mkTrainResult d ∈ find_trains query ts ↔
        ∀ p ∈ py_split_to (d.route.getD ""), (norm p).data <:+: (norm query).data)) ∧
    (∀ d ∈ bs, ((py_split_to (d.route.getD "")).length = 2) →
      (mkBusResult d ∈ find_buses query bs ↔
        ∀ p ∈ py_split_to (d.route.getD ""), (norm p).data <:+: (norm query).data)) := by
  refine ⟨find_trains_eq_filter query ts, find_buses_eq_filter query bs, ?_, ?_⟩
  · intro d hd hlen
    rw [find_trains_eq_filter]
    constructor
    · intro hmem
      rcases List.mem_map.mp hmem with ⟨d', hd', heq⟩
      rcases List.mem_filter.mp hd' with ⟨-, hmatch⟩
      have hroute : d'.route.getD "" = d.route.getD "" := by
        have := congrArg TrainResult.route heq
        simpa [mkTrainResult] using this
      have := (routeMatches_iff (norm query) (d'.route.getD "")).mp hmatch
      rw [hroute] at this
      exact this.2
    · intro hsub
      refine List.mem_map.mpr ⟨d, List.mem_filter.mpr ⟨hd, ?_⟩, rfl⟩
      exact (routeMatches_iff (norm query) (d.route.getD "")).mpr ⟨hlen, hsub⟩
  · intro d hd hlen
    rw [find_buses_eq_filter]
    constructor
    · intro hmem
      rcases List.mem_map.mp hmem with ⟨d', hd', heq⟩
      rcases List.mem_filter.mp hd' with ⟨-, hmatch⟩
      have hroute : d'.route.getD "" = d.route.getD "" := by
        have := congrArg BusResult.route heq
        simpa [mkBusResult] using this
      have := (routeMatches_iff (norm query) (d'.route.getD "")).mp hmatch
      rw [hroute] at this
      exact this.2
    · intro hsub
      refine List.mem_map.mpr ⟨d, List.mem_filter.mpr ⟨hd, ?_⟩, rfl⟩
      exact (routeMatches_iff (norm query) (d.route.getD "")).mpr ⟨hlen, hsub⟩

/-- Witness for C1 at concrete records and queries. -/
theorem schedule_matcher_spec_witness :
    mkTrainResult rajdhaniRec ∈ find_trains "bus from delhi to mumbai please" [rajdhaniRec] ∧
    mkBusResult vrlRec ∈ find_buses "From PUNE... to GOA!" [vrlRec] :=
  ⟨((schedule_matcher_spec "bus from delhi to mumbai please" [rajdhaniRec] [vrlRec]).2.2.1
      rajdhaniRec (by simp) (by decide)).mpr (by decide),
   ((schedule_matcher_spec "From PUNE... to GOA!" [rajdhaniRec] [vrlRec]).2.2.2
      vrlRec (by simp) (by decide)).mpr (by decide)⟩

/-! ## Dispatcher -/

theorem chatbot_train_branch (env : Env) (q : String) (msgs : List Message)
    (ht : find_trains q env.trains ≠ []) :
    chatbot env q msgs = .ok ((format_trains (find_trains q env.trains)).getD "", msgs) := by
  have h1 : (find_trains q env.trains).isEmpty = false := by
    simpa [List.isEmpty_iff] using ht
  simp [chatbot, h1]

theorem chatbot_bus_branch (env : Env) (q : String) (msgs : List Message)
    (ht : find_trains q env.trains = []) (hb : find_buses q env.buses ≠ []) :
    chatbot env q msgs = .ok ((format_buses (find_buses q env.buses)).getD "", msgs) := by
  have h1 : (find_trains q env.trains).isEmpty = true := by simp [List.isEmpty_iff, ht]
  have h2 : (find_buses q env.buses).isEmpty = false := by
    simpa [List.isEmpty_iff] using hb
  simp [chatbot, h1, h2]

theorem chatbot_status_branch (env : Env) (q : String) (msgs : List Message) (n : String)
    (ht : find_trains q env.trains = []) (hb : find_buses q env.buses = [])
    (hn : searchFiveDigit q = some n) :
    chatbot env q msgs = (parse_train_response (env.fetch n)).map (fun r => (r, msgs)) := by
  have h1 : (find_trains q env.trains).isEmpty = true := by simp [List.isEmpty_iff, ht]
  have h2 : (find_buses q env.buses).isEmpty = true := by simp [List.isEmpty_iff, hb]
  cases hp : parse_train_response (env.fetch n) with
  | ok r =>
    simp [chatbot, h1, h2, hn, fetch_train_status, hp, Except.map, bind, Except.bind]
    rfl
  | error e => simp [chatbot, h1, h2, hn, fetch_train_status, hp, Except.map, bind, Except.bind]

theorem chatbot_llm_branch (env : Env) (q : String) (msgs : List Message)
    (ht : find_trains q env.trains = []) (hb : find_buses q env.buses = [])
    (hn : searchFiveDigit q = none) :
    chatbot env q msgs =
      match env.llm (msgs ++ [⟨"user", q⟩]) with
      | .ok ans => .ok (ans, msgs ++ [⟨"user", q⟩, ⟨"assistant", ans⟩])
      | .error e => .ok ("Error: " ++ e, msgs ++ [⟨"user", q⟩]) := by
  have h1 : (find_trains q env.trains).isEmpty = true := by simp [List.isEmpty_iff, ht]
  have h2 : (find_buses q env.buses).isEmpty = true := by simp [List.isEmpty_iff, hb]
  cases hl : env.llm (msgs ++ [⟨"user", q⟩]) with
  | ok ans => simp [chatbot, h1, h2, hn, hl]
  | error e => simp [chatbot, h1, h2, hn, hl]

/-- C2: the four outcomes of `chatbot` are tried in strict priority
order: a train match wins outright, then a bus match, then the 5-digit
live-status lookup, and only last the language-model fallback. -/
theorem chatbot_priority (env : Env) (q : String) (msgs : List Message) :
    (find_trains q env.trains ≠ [] →
      chatbot env q msgs = .ok ((format_trains (find_trains q env.trains)).getD "", msgs)) ∧
    (find_trains q env.trains = [] → find_buses q env.buses ≠ [] →
      chatbot env q msgs = .ok ((format_buses (find_buses q env.buses)).getD "", msgs)) ∧
    (find_trains q env.trains = [] → find_buses q env.buses = [] →
      ∀ n, searchFiveDigit q = some n →
        chatbot env q msgs = (parse_train_response (env.fetch n)).map (fun r => (r, msgs))) ∧
    (find_trains q env.trains = [] → find_buses q env.buses = [] →
      searchFiveDigit q = none →
        chatbot env q msgs =
          match env.llm (msgs ++ [⟨"user", q⟩]) with
          | .ok ans => .ok (ans, msgs ++ [⟨"user", q⟩, ⟨"assistant", ans⟩])
          | .error e => .ok ("Error: " ++ e, msgs ++ [⟨"user", q⟩])) :=
  ⟨chatbot_train_branch env q msgs,
   chatbot_bus_branch env q msgs,
   fun ht hb n hn => chatbot_status_branch env q msgs n ht hb hn,
   chatbot_llm_branch env q msgs⟩

/-- Witness for C2: a query that both matches a train route and contains
a standalone 5-digit number returns the train schedule report, not the
live-status report. -/
theorem chatbot_priority_witness :
    find_trains "delhi to mumbai 12345" envW.trains ≠ [] ∧
    searchFiveDigit "delhi to mumbai 12345" = some "12345" ∧
    chatbot envW "delhi to mumbai 12345" init_messages =
      .ok ((format_trains (find_trains "delhi to mumbai 12345" envW.trains)).getD "",
        init_messages) :=
  ⟨by decide, by decide, (chatbot_priority envW "delhi to mumbai 12345" init_messages).1 (by decide)⟩

/-- C6: a record whose route does not split on " to " into exactly two
parts is (totally, silently) excluded from the matcher's result for
every query, in both datasets. -/
theorem malformed_route_excluded (q : String) (d : TrainRec) (bd : BusRec)
    (ts₁ ts₂ : List TrainRec) (bs₁ bs₂ : List BusRec)
    (hd : (py_split_to (d.route.getD "")).length ≠ 2)
    (hb : (py_split_to (bd.route.getD "")).length ≠ 2) :
    find_trains q (ts₁ ++ d :: ts₂) = find_trains q (ts₁ ++ ts₂) ∧
    find_buses q (bs₁ ++ bd :: bs₂) = find_buses q (bs₁ ++ bs₂) := by
  have hd2 : ((py_split_to (d.route.getD "")).length == 2) = false := by
    simpa using hd
  have hb2 : ((py_split_to (bd.route.getD "")).length == 2) = false := by
    simpa using hb
  have hmt : trainMatches q d = false := by
    simp [trainMatches, routeMatches, hd2]
  have hmb : busMatches q bd = false := by
    simp [busMatches, routeMatches, hb2]
  constructor
  · rw [find_trains_eq_filter, find_trains_eq_filter]
    simp [List.filter_append, List.filter_cons, hmt]
  · rw [find_buses_eq_filter, find_buses_eq_filter]
    simp [List.filter_append, List.filter_cons, hmb]

/-- Witness for C6 at concrete malformed records. -/
theorem malformed_route_excluded_witness :
    find_trains "delhimumbai a b c" ([rajdhaniRec] ++ badTrain :: []) =
      find_trains "delhimumbai a b c" ([rajdhaniRec] ++ []) ∧
    find_buses "delhimumbai a b c" ([vrlRec] ++ badBus :: []) =
      find_buses "delhimumbai a b c" ([vrlRec] ++ []) :=
  malformed_route_excluded "delhimumbai a b c" badTrain badBus [rajdhaniRec] [] [vrlRec] []
    (by decide) (by decide)

/-- C7: an exception in the language-model fallback call is converted
into the reply string "Error: <description>" (never re-raised), and the
`/ask` route still answers it as a normal 200 response body. -/
theorem llm_error_reported (env : Env) (q : String) (msgs : List Message) (e : String)
    (h0 : q ≠ "")
    (ht : find_trains q env.trains = []) (hb : find_buses q env.buses = [])
    (hn : searchFiveDigit q = none)
    (hl : env.llm (msgs ++ [⟨"user", q⟩]) = .error e) :
    chatbot env q msgs = .ok ("Error: " ++ e, msgs ++ [⟨"user", q⟩]) ∧
    ask env (some q) msgs = .ok (⟨200, "Error: " ++ e⟩, msgs ++ [⟨"user", q⟩]) := by
  have hc : chatbot env q msgs = .ok ("Error: " ++ e, msgs ++ [⟨"user", q⟩]) := by
    rw [chatbot_llm_branch env q msgs ht hb hn, hl]
  refine ⟨hc, ?_⟩
  simp [ask, h0, hc, Except.map]

/-- Witness for C7 at a concrete query that reaches the fallback. -/
theorem llm_error_reported_witness :
    chatbot envErr "hello there" init_messages =
      .ok ("Error: " ++ "APIConnectionError: boom", init_messages ++ [⟨"user", "hello there"⟩]) ∧
    ask envErr (some "hello there") init_messages =
      .ok (⟨200, "Error: " ++ "APIConnectionError: boom"⟩,
        init_messages ++ [⟨"user", "hello there"⟩]) :=
  llm_error_reported envErr "hello there" init_messages "APIConnectionError: boom"
    (by decide) (by decide) (by decide) (by decide) rfl

/-- C8: two consecutive successful runs of the language-model fallback
append exactly one user and one assistant message each, in strict
alternating order, preserving all earlier messages. -/
theorem conversation_two_rounds (env : Env) (q₁ q₂ a₁ a₂ : String) (msgs : List Message)
    (ht₁ : find_trains q₁ env.trains = []) (hb₁ : find_buses q₁ env.buses = [])
    (hn₁ : searchFiveDigit q₁ = none)
    (hl₁ : env.llm (msgs ++ [⟨"user", q₁⟩]) = .ok a₁)
    (ht₂ : find_trains q₂ env.trains = []) (hb₂ : find_buses q₂ env.buses = [])
    (hn₂ : searchFiveDigit q₂ = none)
    (hl₂ : env.llm (msgs ++ [⟨"user", q₁⟩, ⟨"assistant", a₁⟩, ⟨"user", q₂⟩]) = .ok a₂) :
    chatbot env q₁ msgs = .ok (a₁, msgs ++ [⟨"user", q₁⟩, ⟨"assistant", a₁⟩]) ∧
    chatbot env q₂ (msgs ++ [⟨"user", q₁⟩, ⟨"assistant", a₁⟩]) =
      .ok (a₂, msgs ++ [⟨"user", q₁⟩, ⟨"assistant", a₁⟩, ⟨"user", q₂⟩, ⟨"assistant", a₂⟩]) := by
  constructor
  · rw [chatbot_llm_branch env q₁ msgs ht₁ hb₁ hn₁, hl₁]
  · rw [chatbot_llm_branch env q₂
      (msgs ++ [(⟨"user", q₁⟩ : Message), (⟨"assistant", a₁⟩ : Message)]) ht₂ hb₂ hn₂]
    rw [show msgs ++ [(⟨"user", q₁⟩ : Message), ⟨"assistant", a₁⟩] ++ [(⟨"user", q₂⟩ : Message)] =
      msgs ++ [⟨"user", q₁⟩, ⟨"assistant", a₁⟩, ⟨"user", q₂⟩] by simp]
    rw [hl₂]
    simp

/-- Witness for C8: the same query fed twice appends user/assistant
pairs in order. -/
theorem conversation_two_rounds_witness :
    chatbot envLLM "hello there" init_messages =
      .ok ("reply 2", init_messages ++ [⟨"user", "hello there"⟩, ⟨"assistant", "reply 2"⟩]) ∧
    chatbot envLLM "hello there"
        (init_messages ++ [⟨"user", "hello there"⟩, ⟨"assistant", "reply 2"⟩]) =
      .ok ("reply 4", init_messages ++ [⟨"user", "hello there"⟩, ⟨"assistant", "reply 2"⟩,
        ⟨"user", "hello there"⟩, ⟨"assistant", "reply 4"⟩]) :=
  conversation_two_rounds envLLM "hello there" "hello there" "reply 2" "reply 4" init_messages
    (by decide) (by decide) (by decide) rfl (by decide) (by decide) (by decide) rfl

/-- C10: when the language-model call raises, the user message has
already been appended and stays; no assistant message is appended, and
the returned "Error: ..." string is not recorded in the state. -/
theorem llm_error_state (env : Env) (q : String) (msgs : List Message) (e : String)
    (ht : find_trains q env.trains = []) (hb : find_buses q env.buses = [])
    (hn : searchFiveDigit q = none)
    (hl : env.llm (msgs ++ [⟨"user", q⟩]) = .error e) :
    chatbot env q msgs = .ok ("Error: " ++ e, msgs ++ [⟨"user", q⟩]) ∧
    msgs <+: msgs ++ [⟨"user", q⟩] ∧
    (msgs ++ [(⟨"user", q⟩ : Message)]).countP (fun m => m.role == "assistant") =
      msgs.countP (fun m => m.role == "assistant") ∧
    (msgs ++ [(⟨"user", q⟩ : Message)]).countP (fun m => m.role == "user") =
      msgs.countP (fun m => m.role == "user") + 1 := by
  refine ⟨?_, ⟨[⟨"user", q⟩], rfl⟩, ?_, ?_⟩
  · rw [chatbot_llm_branch env q msgs ht hb hn, hl]
  · simp [List.countP_append, List.countP_cons]
  · simp [List.countP_append, List.countP_cons]

/-- Witness for C10 at a concrete erroring environment. -/
theorem llm_error_state_witness :
    chatbot envErr "hello there" init_messages =
      .ok ("Error: " ++ "APIConnectionError: boom", init_messages ++ [⟨"user", "hello there"⟩]) ∧
    init_messages <+: init_messages ++ [⟨"user", "hello there"⟩] ∧
    (init_messages ++ [(⟨"user", "hello there"⟩ : Message)]).countP (fun m => m.role == "assistant") =
      init_messages.countP (fun m => m.role == "assistant") ∧
    (init_messages ++ [(⟨"user", "hello there"⟩ : Message)]).countP (fun m => m.role == "user") =
      init_messages.countP (fun m => m.role == "user") + 1 :=
  llm_error_state envErr "hello there" init_messages "APIConnectionError: boom"
    (by decide) (by decide) (by decide) rfl

/-! ## Normalizer -/

theorem toLower_of_isNormChar (c : Char) (h : isNormChar c = true) : c.toLower = c := by
  have h' : ((97 ≤ c.toNat ∧ c.toNat ≤ 122) ∨ (48 ≤ c.toNat ∧ c.toNat ≤ 57)) ∨ c.toNat = 32 := by
    simpa [isNormChar, Bool.or_eq_true, Bool.and_eq_true, decide_eq_true_eq] using h
  rw [Char.toLower]
  rw [if_neg (by omega)]

theorem norm_idem (s : String) : norm (norm s) = norm s := by
  have hmem : ∀ c ∈ (s.data.map Char.toLower).filter isNormChar, isNormChar c = true :=
    fun c hc => List.of_mem_filter hc
  show (⟨(((s.data.map Char.toLower).filter isNormChar).map Char.toLower).filter isNormChar⟩ :
      String) = ⟨(s.data.map Char.toLower).filter isNormChar⟩
  have h1 : ((s.data.map Char.toLower).filter isNormChar).map Char.toLower
      = (s.data.map Char.toLower).filter isNormChar := by
    conv_rhs => rw [← List.map_id ((s.data.map Char.toLower).filter isNormChar)]
    exact List.map_congr_left (fun c hc => toLower_of_isNormChar c (hmem c hc))
  rw [h1, List.filter_eq_self.mpr hmem]

/-- C9: the normalizer is idempotent, its output uses only characters in
`[a-z0-9 ]`, and schedule matching is invariant under pre-normalizing
the query. -/
theorem norm_idempotent_and_invariant :
    (∀ s : String, norm (norm s) = norm s) ∧
    (∀ s : String, (norm s).data.all isNormChar = true) ∧
    (∀ (q : String) (ts : List TrainRec), find_trains (norm q) ts = find_trains q ts) ∧
    (∀ (q : String) (bs : List BusRec), find_buses (norm q) bs = find_buses q bs) := by
  refine ⟨norm_idem, ?_, ?_, ?_⟩
  · intro s
    rw [List.all_eq_true]
    exact fun c hc => List.of_mem_filter hc
  · intro q ts
    simp only [find_trains, norm_idem]
  · intro q bs
    simp only [find_buses, norm_idem]

/-! ## Live-status fetch and parse -/

/-- C4: on the spec's failure conditions the composed status fetch
returns the defaults — `none` (any network error, timeout or non-200)
gives the full fallback report, and a well-shaped body with missing
fields has each missing field individually defaulted — but a 200 body
whose "data" field is `null` makes `parse_train_response` raise an
`AttributeError` instead of returning a report, contradicting its
docstring ("Always return a proper train status report"). -/
theorem parse_train_response_eval :
    parse_train_response none = .ok fallback_report ∧
    parse_train_response (some (Json.obj [("data", Json.obj [])])) = .ok fallback_report ∧
    parse_train_response (some (Json.obj [("data",
        Json.obj [("train_name", Json.str "X Exp"), ("delay_in_minutes", Json.num 7)])])) =
      .ok "\n🚆 Train Status Report\n-------------------------\nTrain Number : 12051\nTrain Name   : X Exp\nStart Date   : 2025-09-18\nCurrent Pos. : New Delhi\nLast Updated : 10:15 AM\nDelay        : 7 minutes\n-------------------------\n" ∧
    parse_train_response (some (Json.obj [("data", Json.null)])) =
      .error "AttributeError: object has no attribute get" :=
  ⟨rfl, rfl, rfl, rfl⟩

/-- C3: an exception does escape the dispatcher — with empty datasets
and a live-status body `{"data": null}`, `chatbot` propagates the
`AttributeError` raised inside `parse_train_response` instead of
returning a string answer. -/
theorem chatbot_exception_escapes :
    chatbot envNullData "my train 12345 status" init_messages =
      .error "AttributeError: object has no attribute get" := rfl

/-! ## Characterization of the 5-digit regex search -/

theorem bstartB_cons (prev : Option Char) (c : Char) (pre : List Char) :
    bstartB prev (c :: pre) = bstartB (some c) pre := by
  cases pre with
  | nil => simp [bstartB, boundaryB]
  | cons x xs =>
    have h : (x :: xs).getLast? = some ((x :: xs).getLast (by simp)) :=
      List.getLast?_eq_getLast _ (by simp)
    simp [bstartB, List.getLast?_cons_cons, h]

theorem goodRunB_cons (prev : Option Char) (c : Char) (pre mid post : List Char) :
    goodRunB prev (c :: pre) mid post = goodRunB (some c) pre mid post := by
  simp [goodRunB, bstartB_cons]

theorem fiveDigitsAt_some_iff (l m : List Char) :
    fiveDigitsAt l = some m ↔
      m.length = 5 ∧ m.all Char.isDigit = true ∧
        ∃ post, l = m ++ post ∧ headOkB post = true := by
  unfold fiveDigitsAt
  constructor
  · intro h
    split_ifs at h with hc
    injection h with h
    subst h
    simp only [Bool.and_eq_true, beq_iff_eq] at hc
    exact ⟨hc.1.1, hc.1.2, l.drop 5, (List.take_append_drop 5 l).symm, hc.2⟩
  · rintro ⟨hlen, hdig, post, rfl, hpost⟩
    have ht : (m ++ post).take 5 = m := List.take_left' hlen
    have hd : (m ++ post).drop 5 = post := List.drop_left' hlen
    rw [ht, hd, if_pos (by simp [hlen, hdig, hpost])]

theorem fiveDigitsAt_none_iff (l : List Char) :
    fiveDigitsAt l = none ↔
      ∀ mid post, l = mid ++ post → mid.length = 5 → mid.all Char.isDigit = true →
        headOkB post = true → False := by
  constructor
  · intro h mid post hl h5 hd hp
    have hsome := (fiveDigitsAt_some_iff l mid).mpr ⟨h5, hd, post, hl, hp⟩
    rw [h] at hsome
    exact Option.noConfusion hsome
  · intro h
    cases hf : fiveDigitsAt l with
    | none => rfl
    | some m =>
      rcases (fiveDigitsAt_some_iff l m).mp hf with ⟨h5, hd, post, hl, hp⟩
      exact (h m post hl h5 hd hp).elim

theorem head_no_match_of_fiveDigitsAt_none (prev : Option Char) (c : Char) (rest : List Char)
    (hf : fiveDigitsAt (c :: rest) = none) (mid post : List Char)
    (hmp : c :: rest = mid ++ post) : goodRunB prev [] mid post = false := by
  cases hgb : goodRunB prev [] mid post with
  | false => rfl
  | true =>
    exfalso
    simp only [goodRunB, Bool.and_eq_true, beq_iff_eq] at hgb
    obtain ⟨⟨⟨hbs, h5⟩, hdig⟩, hok⟩ := hgb
    have hsome := (fiveDigitsAt_some_iff (c :: rest) mid).mpr ⟨h5, hdig, post, hmp, hok⟩
    rw [hf] at hsome
    exact Option.noConfusion hsome

theorem head_no_match_of_boundary_false (prev : Option Char) (c : Char) (rest : List Char)
    (hbf : boundaryB prev = false) (mid post : List Char)
    (_hmp : c :: rest = mid ++ post) : goodRunB prev [] mid post = false := by
  simp [goodRunB, bstartB, hbf]

theorem FirstMatch_cons (prev : Option Char) (c : Char) (rest m : List Char)
    (hhead : ∀ mid post, c :: rest = mid ++ post → goodRunB prev [] mid post = false) :
    FirstMatch prev (c :: rest) m ↔ FirstMatch (some c) rest m := by
  constructor
  · rintro ⟨pre, post, hl, hg, hmin⟩
    cases pre with
    | nil =>
      exfalso
      have hf := hhead m post (by simpa using hl)
      rw [hf] at hg
      exact Bool.noConfusion hg
    | cons c0 pre' =>
      have h3 : c :: rest = c0 :: (pre' ++ m ++ post) := by simpa using hl
      injection h3 with ha hrest
      subst ha
      rw [goodRunB_cons] at hg
      refine ⟨pre', post, hrest, hg, ?_⟩
      intro pre'' mid'' post'' h1 h2
      have h4 : c :: rest = (c :: pre'') ++ mid'' ++ post'' := by rw [h1]; simp
      have h5 : goodRunB prev (c :: pre'') mid'' post'' = true := by
        rw [goodRunB_cons]; exact h2
      have := hmin (c :: pre'') mid'' post'' h4 h5
      simpa using this
  · rintro ⟨pre, post, hl, hg, hmin⟩
    refine ⟨c :: pre, post, by rw [hl]; simp, by rw [goodRunB_cons]; exact hg, ?_⟩
    intro pre' mid' post' h1 h2
    cases pre' with
    | nil =>
      exfalso
      have hf := hhead mid' post' (by simpa using h1)
      rw [hf] at h2
      exact Bool.noConfusion h2
    | cons c0 pre'' =>
      have h3 : c :: rest = c0 :: (pre'' ++ mid' ++ post') := by simpa using h1
      injection h3 with ha hrest
      subst ha
      rw [goodRunB_cons] at h2
      have := hmin pre'' mid' post' hrest h2
      simpa using Nat.succ_le_succ this

theorem noGood_cons_iff (prev : Option Char) (c : Char) (rest : List Char)
    (hhead : ∀ mid post, c :: rest = mid ++ post → goodRunB prev [] mid post = false) :
    (∀ pre mid post, c :: rest = pre ++ mid ++ post → goodRunB prev pre mid post = false) ↔
    (∀ pre mid post, rest = pre ++ mid ++ post → goodRunB (some c) pre mid post = false) := by
  constructor
  · intro hall pre mid post h1
    have h3 : c :: rest = (c :: pre) ++ mid ++ post := by rw [h1]; simp
    have := hall (c :: pre) mid post h3
    rw [goodRunB_cons] at this
    exact this
  · intro hall pre mid post h1
    cases pre with
    | nil => exact hhead mid post (by simpa using h1)
    | cons c0 pre' =>
      have h3 : c :: rest = c0 :: (pre' ++ mid ++ post) := by simpa using h1
      injection h3 with ha hrest
      subst ha
      rw [goodRunB_cons]
      exact hall pre' mid post hrest

theorem searchFiveAux_cons (prev : Option Char) (c : Char) (rest : List Char) :
    searchFiveAux prev (c :: rest) =
      match (if boundaryB prev then fiveDigitsAt (c :: rest) else none) with
      | some m => some m
      | none => searchFiveAux (some c) rest := rfl

theorem searchFiveAux_none_iff (prev : Option Char) (l : List Char) :
    searchFiveAux prev l = none ↔
      ∀ pre mid post, l = pre ++ mid ++ post → goodRunB prev pre mid post = false := by
  induction l generalizing prev with
  | nil =>
    constructor
    · intro _ pre mid post h
      have h0 : pre = [] ∧ mid = [] ∧ post = [] := by
        have h1 : pre ++ mid ++ post = [] := h.symm
        simpa [List.append_eq_nil] using h1
      obtain ⟨rfl, rfl, rfl⟩ := h0
      simp [goodRunB]
    · intro _
      rfl
  | cons c rest ih =>
    rw [searchFiveAux_cons]
    by_cases hb : boundaryB prev = true
    · rw [if_pos hb]
      cases hf : fiveDigitsAt (c :: rest) with
      | some m0 =>
        show some m0 = none ↔ _
        refine iff_of_false (by simp) ?_
        intro hall
        rcases (fiveDigitsAt_some_iff _ _).mp hf with ⟨h5, hd, post0, hl0, hp0⟩
        have hgood : goodRunB prev [] m0 post0 = true := by
          simp [goodRunB, bstartB, hb, h5, hd, hp0]
        have hfalse := hall [] m0 post0 (by simpa using hl0)
        rw [hgood] at hfalse
        exact Bool.noConfusion hfalse
      | none =>
        show searchFiveAux (some c) rest = none ↔ _
        rw [ih]
        exact (noGood_cons_iff prev c rest
          (head_no_match_of_fiveDigitsAt_none prev c rest hf)).symm
    · have hbf : boundaryB prev = false := by
        cases hbb : boundaryB prev
        · rfl
        · exact absurd hbb hb
      rw [if_neg hb]
      show searchFiveAux (some c) rest = none ↔ _
      rw [ih]
      exact (noGood_cons_iff prev c rest
        (head_no_match_of_boundary_false prev c rest hbf)).symm

theorem searchFiveAux_some_iff (prev : Option Char) (l m : List Char) :
    searchFiveAux prev l = some m ↔ FirstMatch prev l m := by
  induction l generalizing prev with
  | nil =>
    refine iff_of_false (by simp [searchFiveAux]) ?_
    rintro ⟨pre, post, hl, hg, -⟩
    have h0 : pre = [] ∧ m = [] ∧ post = [] := by
      have h1 : pre ++ m ++ post = [] := hl.symm
      simpa [List.append_eq_nil] using h1
    obtain ⟨rfl, rfl, rfl⟩ := h0
    simp [goodRunB] at hg
  | cons c rest ih =>
    rw [searchFiveAux_cons]
    by_cases hb : boundaryB prev = true
    · rw [if_pos hb]
      cases hf : fiveDigitsAt (c :: rest) with
      | some m0 =>
        show some m0 = some m ↔ _
        rcases (fiveDigitsAt_some_iff _ _).mp hf with ⟨h5, hd, post0, hl0, hp0⟩
        have hgood : goodRunB prev [] m0 post0 = true := by
          simp [goodRunB, bstartB, hb, h5, hd, hp0]
        constructor
        · intro h
          injection h with h
          subst h
          exact ⟨[], post0, by simpa using hl0, hgood, fun pre' mid' post' _ _ => Nat.zero_le _⟩
        · rintro ⟨pre, post, hl, hg, hmin⟩
          have hpre : pre = [] := by
            have hle := hmin [] m0 post0 (by simpa using hl0) hgood
            exact List.eq_nil_of_length_eq_zero (Nat.le_zero.mp hle)
          subst hpre
          simp only [goodRunB, Bool.and_eq_true, beq_iff_eq] at hg
          obtain ⟨⟨⟨hbs, hm5⟩, hmd⟩, hmo⟩ := hg
          have hms : fiveDigitsAt (c :: rest) = some m :=
            (fiveDigitsAt_some_iff _ _).mpr ⟨hm5, hmd, post, by simpa using hl, hmo⟩
          rw [hf] at hms
          injection hms with hms
          rw [hms]
      | none =>
        show searchFiveAux (some c) rest = some m ↔ _
        rw [ih]
        exact (FirstMatch_cons prev c rest m
          (head_no_match_of_fiveDigitsAt_none prev c rest hf)).symm
    · have hbf : boundaryB prev = false := by
        cases hbb : boundaryB prev
        · rfl
        · exact absurd hbb hb
      rw [if_neg hb]
      show searchFiveAux (some c) rest = some m ↔ _
      rw [ih]
      exact (FirstMatch_cons prev c rest m
        (head_no_match_of_boundary_false prev c rest hbf)).symm

theorem searchFiveDigit_some_iff (q n : String) :
    searchFiveDigit q = some n ↔ FirstMatch none q.data n.data := by
  unfold searchFiveDigit
  constructor
  · intro h
    rcases Option.map_eq_some'.mp h with ⟨cs, hcs, hn⟩
    have hdata : n.data = cs := by rw [← hn]
    rw [hdata]
    exact (searchFiveAux_some_iff none q.data cs).mp hcs
  · intro h
    have hcs := (searchFiveAux_some_iff none q.data n.data).mpr h
    rw [hcs]
    rfl

theorem searchFiveDigit_none_iff (q : String) :
    searchFiveDigit q = none ↔
      ∀ pre mid post, q.data = pre ++ mid ++ post → goodRunB none pre mid post = false := by
  unfold searchFiveDigit
  rw [Option.map_eq_none']
  exact searchFiveAux_none_iff none q.data

/-- C5 counterexample: in `"train12345"` the run `12345` has a
non-digit left neighbour (`n`) and the string boundary on the right, so
the claim's condition holds — yet `\b(\d{5})\b` does not match (the
neighbour is a word character), and with no route match the dispatcher
takes the language-model branch, not the live-status branch. -/
theorem live_status_branch_cex :
    claimedFiveDigitRun "train12345" = true ∧
    searchFiveDigit "train12345" = none ∧
    chatbot envW "train12345" init_messages =
      .ok ("sample reply", init_messages ++
        [⟨"user", "train12345"⟩, ⟨"assistant", "sample reply"⟩]) :=
  ⟨by decide, by decide, rfl⟩

/-- C5 (amended): for a query with no route match, the live-status
branch is taken iff the raw query contains a run of exactly five digits
whose immediate neighbours are non-WORD characters (neither letters,
digits nor underscore) or the string boundary; the number used is the
first (leftmost) such run (`FirstMatch`/`goodRunB` spell out this
condition, relative to an empty preceding context). -/
theorem live_status_branch_iff (env : Env) (q : String) (msgs : List Message)
    (ht : find_trains q env.trains = []) (hb : find_buses q env.buses = []) :
    (∀ n, searchFiveDigit q = some n →
      chatbot env q msgs = (parse_train_response (env.fetch n)).map (fun r => (r, msgs))) ∧
    (searchFiveDigit q = none →
      chatbot env q msgs =
        match env.llm (msgs ++ [⟨"user", q⟩]) with
        | .ok ans => .ok (ans, msgs ++ [⟨"user", q⟩, ⟨"assistant", ans⟩])
        | .error e => .ok ("Error: " ++ e, msgs ++ [⟨"user", q⟩])) ∧
    (∀ n : String, searchFiveDigit q = some n ↔ FirstMatch none q.data n.data) ∧
    (searchFiveDigit q = none ↔
      ∀ pre mid post, q.data = pre ++ mid ++ post → goodRunB none pre mid post = false) :=
  ⟨fun n hn => chatbot_status_branch env q msgs n ht hb hn,
   chatbot_llm_branch env q msgs ht hb,
   fun n => searchFiveDigit_some_iff q n,
   searchFiveDigit_none_iff q⟩

/-- Witness for C5 (amended) at a concrete status query. -/
theorem live_status_branch_iff_witness :
    chatbot envW "status of 12345 please" init_messages =
      (parse_train_response (envW.fetch "12345")).map (fun r => (r, init_messages)) :=
  (live_status_branch_iff envW "status of 12345 please" init_messages
    (by decide) (by decide)).1 "12345" (by decide)
